import Mathlib

/-!
Shallow embedding of `src/crewai_agent.py` (machineid-io/crewai-machineid-template).

The script reads two environment variables, POSTs to a register endpoint,
branches on the returned `status` string, sleeps, GETs a validate endpoint,
branches on the `allowed` boolean, then builds and runs a fixed CrewAI
agent/task/crew and prints the result.

Modelling choices:
- Python/JSON values are `PyVal`; `bool(·)` coercion is `PyVal.truthy`;
  `dict.get` is modelled by `pyGet` (raising `AttributeError` on non-dicts,
  as Python does).
- The outside world (environment variables, the two mocked HTTP responses,
  and the outcome of `crew.kickoff()`) is a `World` record; `resp.json()`
  is the `json` field of a response (an `Except`, since it can raise).
- Every observable action (each `print`, each HTTP call, the sleep, the two
  branches, building the crew, the kickoff) is recorded as an `Event`;
  print events record the printed arguments rather than rendered text.
- `main` returns the event trace together with an `Outcome`:
  normal return, `sys.exit(code)`, or an uncaught exception propagating out
  (CPython terminates with exit code 1 in that case).
-/

namespace CrewaiAgent

/-- Python/JSON values as used by the script: `None`, booleans, integers,
strings, lists and (string-keyed) dicts. -/
inductive PyVal where
| none : PyVal
| bool : Bool → PyVal
| int : Int → PyVal
| str : String → PyVal
| list : List PyVal → PyVal
| dict : List (String × PyVal) → PyVal

/-- Python truthiness, `bool(v)`: `None`, `False`, `0`, `""`, `[]`, `{}`
are falsy; everything else is truthy. -/
def PyVal.truthy : PyVal → Bool
| PyVal.none => false
| PyVal.bool b => b
| PyVal.int n => n != 0
| PyVal.str s => s != ""
| PyVal.list xs => !xs.isEmpty
| PyVal.dict kvs => !kvs.isEmpty

/-- Python exceptions that the script can raise. -/
inductive PyErr where
| runtimeError : String → PyErr
| jsonDecodeError : PyErr
| attributeError : PyErr
deriving DecidableEq

/-- First-match lookup in a key/value list (Python dicts have unique keys,
so first match is the dict lookup). -/
def pyLookup : List (String × PyVal) → String → Option PyVal
| [], _ => Option.none
| (k, v) :: rest, key => if k = key then some v else pyLookup rest key

/-- `data.get(key, dflt)`: succeeds with the looked-up value (or the default)
when `data` is a dict, raises `AttributeError` otherwise. -/
def pyGet (data : PyVal) (key : String) (dflt : PyVal) : Except PyErr PyVal :=
match data with
| PyVal.dict kvs => Except.ok ((pyLookup kvs key).getD dflt)
| _ => Except.error PyErr.attributeError

/-- Python `v == "lit"` for a value against a string literal: true exactly
when `v` is that string (values of other types never equal a `str`). -/
def pyEqStr : PyVal → String → Bool
| PyVal.str s, t => s = t
| _, _ => false

/-- An HTTP response as the script observes it through `requests`:
its status code, its raw body text, and the result of `resp.json()`
(`Except.error ()` models a body that does not parse as JSON). -/
structure HttpResp where
status_code : Nat
text : String
json : Except Unit PyVal

inductive Method where
| post : Method
| get : Method
deriving DecidableEq

/-- An outgoing HTTP request as assembled by the script: method, URL,
headers, optional JSON body (the `json=` kwarg), query params (`params=`),
and the timeout in seconds. -/
structure Request where
method : Method
url : String
headers : List (String × String)
jsonBody : Option PyVal
params : List (String × String)
timeout : Nat

def BASE_URL : String := "https://machineid.io"

def REGISTER_URL : String := BASE_URL ++ "/api/v1/devices/register"

def VALIDATE_URL : String := BASE_URL ++ "/api/v1/devices/validate"

/-- Message of the `RuntimeError` raised when the org key is missing. -/
def missingOrgKeyMsg : String :=
"Missing MACHINEID_ORG_KEY. Set it in your environment or via a .env file.\n" ++
"Example:\n" ++
"  export MACHINEID_ORG_KEY=org_your_key_here\n"

/-- `get_org_key`: reads `MACHINEID_ORG_KEY`; raises `RuntimeError` when it
is unset or empty (`if not org_key`), else returns it stripped. -/
def get_org_key (env : String → Option String) : Except PyErr String :=
match env "MACHINEID_ORG_KEY" with
| Option.none => Except.error (PyErr.runtimeError missingOrgKeyMsg)
| some s =>
  if s = "" then Except.error (PyErr.runtimeError missingOrgKeyMsg)
  else Except.ok s.trim

/-- `get_device_id`: `os.getenv("MACHINEID_DEVICE_ID", "crewai-agent-01")` -
the variable when set, the default when unset. Total: it never raises. -/
def get_device_id (env : String → Option String) : String :=
(env "MACHINEID_DEVICE_ID").getD "crewai-agent-01"

/-- The request sent by `register_device`: POST to the register endpoint,
org key header, JSON content type, body `\x7b"deviceId": device_id\x7d`. -/
def registerRequest (org_key device_id : String) : Request :=
{ method := Method.post
  url := REGISTER_URL
  headers := [("x-org-key", org_key), ("Content-Type", "application/json")]
  jsonBody := some (PyVal.dict [("deviceId", PyVal.str device_id)])
  params := []
  timeout := 10 }

/-- The request sent by `validate_device`: GET to the validate endpoint,
org key header, `deviceId` as a query parameter, no body. -/
def validateRequest (org_key device_id : String) : Request :=
{ method := Method.get
  url := VALIDATE_URL
  headers := [("x-org-key", org_key)]
  jsonBody := Option.none
  params := [("deviceId", device_id)]
  timeout := 10 }

/-- The CrewAI LLM wrapper object (only its configuration is observable). -/
structure LLM where
model : String
deriving DecidableEq

/-- A CrewAI agent as configured by the script. -/
structure Agent where
role : String
goal : String
backstory : String
llm : LLM
allow_delegation : Bool
deriving DecidableEq

/-- A CrewAI task as configured by the script (named `CrewTask` because
`Task` already exists in Lean's prelude). -/
structure CrewTask where
description : String
agent : Agent
expected_output : String
deriving DecidableEq

inductive ProcessKind where
| sequential : ProcessKind
| hierarchical : ProcessKind
deriving DecidableEq

/-- A CrewAI crew: agents, tasks and the process kind. -/
structure Crew where
agents : List Agent
tasks : List CrewTask
process : ProcessKind
deriving DecidableEq

/-- `build_crewai_objects`: the fixed one-agent / one-task / sequential-crew
object graph, with the literal strings of the source. -/
def build_crewai_objects : Crew :=
let llm : LLM := { model := "gpt-4o-mini" }
let planning_agent : Agent :=
  { role := "CrewAI Worker"
    goal :=
      "Create short, practical 3-step plans that show developers how to keep " ++
      "their CrewAI agents under control using MachineID.io."
    backstory :=
      "You help developers run CrewAI agents safely. MachineID.io sits in front " ++
      "of their agents as a device-level gatekeeper: each agent registers on " ++
      "startup and validates before doing work, so they can avoid runaway " ++
      "spawning and keep fleets predictable."
    llm := llm
    allow_delegation := false }
let task : CrewTask :=
  { description :=
      "Generate a concise 3-step plan for how a developer can use MachineID.io " ++
      "together with CrewAI agents to keep scaling under control. Focus on:\n" ++
      "- Registering each agent (deviceId) when it starts\n" ++
      "- Validating before doing work or starting a major task\n" ++
      "- Treating a failed validation or limit_reached status as the hard stop " ++
      "to avoid spawning more agents.\n\n" ++
      "Do not mention dashboards, analytics, or built-in spend monitoring. " ++
      "Explain MachineID.io as a device-level limiter and gate, not an analytics tool."
    agent := planning_agent
    expected_output :=
      "A short markdown list with exactly 3 numbered steps. Each step should be " ++
      "1–2 sentences, practical, and focused on using register + validate as " ++
      "control points around CrewAI agents." }
{ agents := [planning_agent]
  tasks := [task]
  process := ProcessKind.sequential }

/-- Observable events of a run. Print events record the arguments handed to
`print` (a fixed/concatenated string, or a label plus a value) rather than
Python's rendered text. -/
inductive Event where
| readEnvVars : Event
| printLine : String → Event
| printKV : String → PyVal → Event
| printRegisterStatus : PyVal → PyVal → Event
| printValidateStatus : PyVal → PyVal → Bool → PyVal → Event
| httpPost : Request → Event
| branchStatus : PyVal → Event
| sleepSecs : Nat → Event
| httpGet : Request → Event
| branchAllowed : Bool → Event
| buildCrew : Crew → Event
| kickoff : Event
| printResult : String → Event

/-- One line of the registration summary: printed only when the field is
not `None` (`if plan_tier is not None: print(...)`). -/
def optRegKV (label : String) (v : PyVal) : List Event :=
match v with
| PyVal.none => []
| _ => [Event.printKV label v]

/-- `register_device`: prints the banner, POSTs, and either prints the parse
failure (status code and body) and re-raises, or reads the summary fields
(raising `AttributeError` on a non-dict, as `data.get` would), prints the
summary, and returns the parsed body unchanged. -/
def register_device (org_key device_id : String) (resp : HttpResp) :
    List Event × Except PyErr PyVal :=
let evs0 : List Event :=
  [Event.printLine ("→ Registering device \x27" ++ device_id ++ "\x27 via " ++
     REGISTER_URL ++ " ..."),
   Event.httpPost (registerRequest org_key device_id)]
match resp.json with
| Except.error _ =>
  (evs0 ++
   [Event.printLine "❌ Could not parse JSON from register response.",
    Event.printKV "Status code:" (PyVal.int (Int.ofNat resp.status_code)),
    Event.printKV "Body:" (PyVal.str resp.text)],
   Except.error PyErr.jsonDecodeError)
| Except.ok data =>
  match data with
  | PyVal.dict kvs =>
    let status := (pyLookup kvs "status").getD PyVal.none
    let handler := (pyLookup kvs "handler").getD PyVal.none
    let plan_tier := (pyLookup kvs "planTier").getD PyVal.none
    let limit := (pyLookup kvs "limit").getD PyVal.none
    let devices_used := (pyLookup kvs "devicesUsed").getD PyVal.none
    let remaining := (pyLookup kvs "remaining").getD PyVal.none
    (evs0 ++
     [Event.printRegisterStatus status handler,
      Event.printLine "Registration summary:"] ++
     optRegKV "  planTier    :" plan_tier ++
     optRegKV "  limit       :" limit ++
     optRegKV "  devicesUsed :" devices_used ++
     optRegKV "  remaining   :" remaining ++
     [Event.printLine ""],
     Except.ok data)
  | _ => (evs0, Except.error PyErr.attributeError)

/-- `validate_device`: prints the banner, GETs, and either prints the parse
failure (status code and body) and re-raises, or reads the summary fields
(raising `AttributeError` on a non-dict), prints them, and returns the
parsed body unchanged. -/
def validate_device (org_key device_id : String) (resp : HttpResp) :
    List Event × Except PyErr PyVal :=
let evs0 : List Event :=
  [Event.printLine ("→ Validating device \x27" ++ device_id ++ "\x27 via " ++
     VALIDATE_URL ++ " ..."),
   Event.httpGet (validateRequest org_key device_id)]
match resp.json with
| Except.error _ =>
  (evs0 ++
   [Event.printLine "❌ Could not parse JSON from validate response.",
    Event.printKV "Status code:" (PyVal.int (Int.ofNat resp.status_code)),
    Event.printKV "Body:" (PyVal.str resp.text)],
   Except.error PyErr.jsonDecodeError)
| Except.ok data =>
  match data with
  | PyVal.dict kvs =>
    let status := (pyLookup kvs "status").getD PyVal.none
    let handler := (pyLookup kvs "handler").getD PyVal.none
    let allowed := ((pyLookup kvs "allowed").getD (PyVal.bool false)).truthy
    let reason := (pyLookup kvs "reason").getD (PyVal.str "unknown")
    (evs0 ++
     [Event.printValidateStatus status handler allowed reason,
      Event.printLine ""],
     Except.ok data)
  | _ => (evs0, Except.error PyErr.attributeError)

/-- The world a run depends on: the environment variables, the two mocked
HTTP responses, and what `crew.kickoff()` does (returns a result rendered
as a string, or raises an exception with a message). -/
structure World where
env : String → Option String
registerResp : HttpResp
validateResp : HttpResp
kickoffResult : Except String String

/-- How the process ends: `main` returned normally (process exit code 0),
`sys.exit(code)` was called, or an exception propagated uncaught out of
`main` (CPython exits with code 1). -/
inductive Outcome where
| finished : Outcome
| exited : Nat → Outcome
| uncaught : PyErr → Outcome
deriving DecidableEq

/-- Process exit code determined by the outcome. -/
def exitCode : Outcome → Nat
| Outcome.finished => 0
| Outcome.exited c => c
| Outcome.uncaught _ => 1

/-- `main`: the whole script, step by step, returning the event trace and
the outcome. -/
def main (w : World) : List Event × Outcome :=
match get_org_key w.env with
| Except.error e => ([Event.readEnvVars], Outcome.uncaught e)
| Except.ok org_key =>
  let device_id := get_device_id w.env
  let pre : List Event :=
    [Event.readEnvVars,
     Event.printKV "✔ MACHINEID_ORG_KEY loaded:" (PyVal.str (org_key.take 12 ++ "...")),
     Event.printKV "Using deviceId:" (PyVal.str device_id),
     Event.printLine ""]
  match register_device org_key device_id w.registerResp with
  | (regEvs, Except.error e) => (pre ++ regEvs, Outcome.uncaught e)
  | (regEvs, Except.ok reg) =>
    match pyGet reg "status" PyVal.none with
    | Except.error e => (pre ++ regEvs, Outcome.uncaught e)
    | Except.ok reg_status =>
      let evs1 := pre ++ regEvs ++ [Event.branchStatus reg_status]
      if pyEqStr reg_status "limit_reached" then
        (evs1 ++
         [Event.printLine
           "🚫 Plan limit reached on register. CrewAI run will NOT start."],
         Outcome.exited 0)
      else
        let evs2 := evs1 ++
          [Event.printLine "Waiting 2 seconds before validating...",
           Event.sleepSecs 2]
        match validate_device org_key device_id w.validateResp with
        | (valEvs, Except.error e) => (evs2 ++ valEvs, Outcome.uncaught e)
        | (valEvs, Except.ok val) =>
          match pyGet val "allowed" (PyVal.bool false), pyGet val "reason" (PyVal.str "unknown") with
          | Except.error e, _ => (evs2 ++ valEvs, Outcome.uncaught e)
          | _, Except.error e => (evs2 ++ valEvs, Outcome.uncaught e)
          | Except.ok allowedV, Except.ok reasonV =>
            let allowed := allowedV.truthy
            let evs3 := evs2 ++ valEvs ++
              [Event.printLine "Validation summary:",
               Event.printKV "  allowed :" (PyVal.bool allowed),
               Event.printKV "  reason  :" reasonV,
               Event.printLine "",
               Event.branchAllowed allowed]
            if !allowed then
              (evs3 ++
               [Event.printLine "🚫 Device is NOT allowed. CrewAI run will NOT start."],
               Outcome.exited 0)
            else
              let evs4 := evs3 ++
                [Event.printLine
                  "✅ Device is allowed. Building CrewAI objects and starting the run...",
                 Event.printLine "",
                 Event.buildCrew build_crewai_objects,
                 Event.kickoff]
              match w.kickoffResult with
              | Except.error msg =>
                (evs4 ++
                 [Event.printKV "❌ Error while running CrewAI crew:" (PyVal.str msg)],
                 Outcome.exited 1)
              | Except.ok r =>
                (evs4 ++
                 [Event.printLine "✔ CrewAI result:",
                  Event.printResult r,
                  Event.printLine "",
                  Event.printLine "Done. crewai_agent.py completed successfully."],
                 Outcome.finished)

/-- The event trace of a run. -/
def mainEvents (w : World) : List Event := (main w).1

/-- The outcome of a run. -/
def mainOutcome (w : World) : Outcome := (main w).2

/-- Coarse step tags for the fixed step order of `main`. -/
inductive StepTag where
| envStep : StepTag
| registerStep : StepTag
| statusBranch : StepTag
| sleepStep : StepTag
| validateStep : StepTag
| allowedBranch : StepTag
| buildStep : StepTag
| kickoffStep : StepTag
| resultStep : StepTag
deriving DecidableEq, BEq

/-- The coarse step an event belongs to; print lines are not steps. -/
def stepOf : Event → Option StepTag
| Event.readEnvVars => some StepTag.envStep
| Event.httpPost _ => some StepTag.registerStep
| Event.branchStatus _ => some StepTag.statusBranch
| Event.sleepSecs _ => some StepTag.sleepStep
| Event.httpGet _ => some StepTag.validateStep
| Event.branchAllowed _ => some StepTag.allowedBranch
| Event.buildCrew _ => some StepTag.buildStep
| Event.kickoff => some StepTag.kickoffStep
| Event.printResult _ => some StepTag.resultStep
| _ => Option.none

/-- The step trace of a run. -/
def mainSteps (w : World) : List StepTag := (mainEvents w).filterMap stepOf

/-- The fixed order of steps of `main` on a complete run. -/
def canonicalSteps : List StepTag :=
[StepTag.envStep, StepTag.registerStep, StepTag.statusBranch, StepTag.sleepStep,
 StepTag.validateStep, StepTag.allowedBranch, StepTag.buildStep,
 StepTag.kickoffStep, StepTag.resultStep]

/-- Whether an event is a call to `crew.kickoff()`. -/
def isKickoffEv : Event → Bool
| Event.kickoff => true
| _ => false

/-- Whether an event is a call to `build_crewai_objects`. -/
def isBuildEv : Event → Bool
| Event.buildCrew _ => true
| _ => false

/-- Number of calls to `crew.kickoff()` in a run. -/
def kickoffCount (w : World) : Nat :=
((mainEvents w).filter isKickoffEv).length

/-- Whether `build_crewai_objects` was called in a run. -/
def crewBuilt (w : World) : Bool :=
(mainEvents w).any isBuildEv

/-! Concrete fixtures: an environment with both variables set, JSON and
non-JSON responses, and worlds exercising each path of the script. -/

/-- Environment with the org key and a device id set. -/
def envFull : String → Option String := fun k =>
if k = "MACHINEID_ORG_KEY" then some "org_test_key_123"
else if k = "MACHINEID_DEVICE_ID" then some "dev-7" else Option.none

/-- A response whose body parses as the given JSON value. -/
def respJson (c : Nat) (body : PyVal) : HttpResp :=
{ status_code := c, text := "", json := Except.ok body }

/-- A response whose body does not parse as JSON. -/
def respBad (c : Nat) (t : String) : HttpResp :=
{ status_code := c, text := t, json := Except.error () }

def regOkBody : PyVal :=
PyVal.dict [("status", PyVal.str "active"), ("handler", PyVal.str "edge")]

def regLimitBody : PyVal :=
PyVal.dict [("status", PyVal.str "limit_reached")]

def regErrorBody : PyVal :=
PyVal.dict [("status", PyVal.str "error")]

def valAllowBody : PyVal :=
PyVal.dict [("allowed", PyVal.bool true), ("reason", PyVal.str "ok")]

def valDenyBody : PyVal :=
PyVal.dict [("allowed", PyVal.bool false), ("reason", PyVal.str "denied")]

def valMissingAllowedBody : PyVal :=
PyVal.dict [("status", PyVal.str "ok")]

def err500Body : PyVal :=
PyVal.dict [("error", PyVal.str "internal")]

/-- Happy path: register ok, validation allowed, kickoff succeeds. -/
def wAllowed : World :=
{ env := envFull
  registerResp := respJson 200 regOkBody
  validateResp := respJson 200 valAllowBody
  kickoffResult := Except.ok "plan" }

/-- Register answers `limit_reached`. -/
def wLimit : World :=
{ env := envFull
  registerResp := respJson 200 regLimitBody
  validateResp := respJson 200 valAllowBody
  kickoffResult := Except.ok "plan" }

/-- Validation answers `allowed = false`. -/
def wDenied : World :=
{ env := envFull
  registerResp := respJson 200 regOkBody
  validateResp := respJson 200 valDenyBody
  kickoffResult := Except.ok "plan" }

/-- Validate response lacks the `allowed` key. -/
def wMissingAllowed : World :=
{ env := envFull
  registerResp := respJson 200 regOkBody
  validateResp := respJson 200 valMissingAllowedBody
  kickoffResult := Except.ok "plan" }

/-- Register response body is not JSON. -/
def wBadRegJson : World :=
{ env := envFull
  registerResp := respBad 502 "Bad Gateway"
  validateResp := respJson 200 valAllowBody
  kickoffResult := Except.ok "plan" }

/-- Validate response body is not JSON. -/
def wBadValJson : World :=
{ env := envFull
  registerResp := respJson 200 regOkBody
  validateResp := respBad 500 "oops"
  kickoffResult := Except.ok "plan" }

/-- Allowed, but `crew.kickoff()` raises. -/
def wKickoffBoom : World :=
{ env := envFull
  registerResp := respJson 200 regOkBody
  validateResp := respJson 200 valAllowBody
  kickoffResult := Except.error "boom" }

/-- Register status is `error` rather than `limit_reached`. -/
def wRegError : World :=
{ env := envFull
  registerResp := respJson 200 regErrorBody
  validateResp := respJson 200 valAllowBody
  kickoffResult := Except.ok "plan" }

/-! Helper lemmas shared by the claim theorems. -/

theorem optRegKV_steps (label : String) (v : PyVal) :
    (optRegKV label v).filterMap stepOf = [] := by
cases v <;> rfl

theorem optRegKV_filter_kickoff (label : String) (v : PyVal) :
    (optRegKV label v).filter isKickoffEv = [] := by
cases v <;> rfl

theorem optRegKV_any_build (label : String) (v : PyVal) :
    (optRegKV label v).any isBuildEv = false := by
cases v <;> rfl

/-- Runs that hit `limit_reached` at the register branch: exit 0 after the
status branch, crew never built, kickoff never called. -/
theorem run_halts_limit (w : World) (key : String) (lr : List (String × PyVal))
    (hok : get_org_key w.env = Except.ok key)
    (hr : w.registerResp.json = Except.ok (PyVal.dict lr))
    (hls : pyEqStr ((pyLookup lr "status").getD PyVal.none) "limit_reached" = true) :
    mainOutcome w = Outcome.exited 0 ∧
    mainSteps w = [StepTag.envStep, StepTag.registerStep, StepTag.statusBranch] ∧
    crewBuilt w = false ∧ kickoffCount w = 0 := by
unfold mainOutcome mainSteps crewBuilt kickoffCount mainEvents main
simp [hok, register_device, hr, pyGet, hls, stepOf,
  isKickoffEv, isBuildEv, optRegKV_steps, optRegKV_filter_kickoff,
  optRegKV_any_build, List.filterMap_append, List.filter_append, List.any_append]

/-- Runs that pass registration but are denied at the validate branch:
exit 0 after the allowed branch, crew never built, kickoff never called. -/
theorem run_halts_denied (w : World) (key : String)
    (lr lv : List (String × PyVal))
    (hok : get_org_key w.env = Except.ok key)
    (hr : w.registerResp.json = Except.ok (PyVal.dict lr))
    (hls : pyEqStr ((pyLookup lr "status").getD PyVal.none) "limit_reached" = false)
    (hv : w.validateResp.json = Except.ok (PyVal.dict lv))
    (ha : ((pyLookup lv "allowed").getD (PyVal.bool false)).truthy = false) :
    mainOutcome w = Outcome.exited 0 ∧
    mainSteps w = [StepTag.envStep, StepTag.registerStep, StepTag.statusBranch,
      StepTag.sleepStep, StepTag.validateStep, StepTag.allowedBranch] ∧
    crewBuilt w = false ∧ kickoffCount w = 0 := by
unfold mainOutcome mainSteps crewBuilt kickoffCount mainEvents main
simp [hok, register_device, hr, validate_device, hv, pyGet,
  hls, ha, stepOf, isKickoffEv, isBuildEv, optRegKV_steps,
  optRegKV_filter_kickoff, optRegKV_any_build, List.filterMap_append,
  List.filter_append, List.any_append]

/-- Runs that pass registration and validation: the crew is built, kickoff
is called exactly once, and the outcome follows the kickoff result. -/
theorem run_allowed_kickoff (w : World) (key : String)
    (lr lv : List (String × PyVal))
    (hok : get_org_key w.env = Except.ok key)
    (hr : w.registerResp.json = Except.ok (PyVal.dict lr))
    (hls : pyEqStr ((pyLookup lr "status").getD PyVal.none) "limit_reached" = false)
    (hv : w.validateResp.json = Except.ok (PyVal.dict lv))
    (ha : ((pyLookup lv "allowed").getD (PyVal.bool false)).truthy = true) :
    crewBuilt w = true ∧ kickoffCount w = 1 ∧
    Event.branchAllowed true ∈ mainEvents w ∧
    (∀ msg, w.kickoffResult = Except.error msg →
      mainOutcome w = Outcome.exited 1 ∧
      mainSteps w = [StepTag.envStep, StepTag.registerStep, StepTag.statusBranch,
        StepTag.sleepStep, StepTag.validateStep, StepTag.allowedBranch,
        StepTag.buildStep, StepTag.kickoffStep]) ∧
    (∀ r, w.kickoffResult = Except.ok r →
      mainOutcome w = Outcome.finished ∧
      Event.printResult r ∈ mainEvents w ∧
      mainSteps w = canonicalSteps) := by
unfold mainOutcome mainSteps crewBuilt kickoffCount mainEvents main
cases hko : w.kickoffResult with
| error msg =>
  simp [hok, register_device, hr, validate_device, hv, pyGet,
    hls, ha, hko, stepOf, isKickoffEv, isBuildEv, optRegKV_steps,
    optRegKV_filter_kickoff, optRegKV_any_build, List.filterMap_append,
    List.filter_append, List.any_append, canonicalSteps]
| ok r =>
  simp [hok, register_device, hr, validate_device, hv, pyGet,
    hls, ha, hko, stepOf, isKickoffEv, isBuildEv, optRegKV_steps,
    optRegKV_filter_kickoff, optRegKV_any_build, List.filterMap_append,
    List.filter_append, List.any_append, canonicalSteps]

/-- Whether a value is a Python dict. -/
def isDictV : PyVal → Bool
| PyVal.dict _ => true
| _ => false

/-- Runs where the org key is missing or empty: `get_org_key` raises and
nothing beyond the env step runs. -/
theorem run_orgkey_missing (w : World) (e : PyErr)
    (hk : get_org_key w.env = Except.error e) :
    mainOutcome w = Outcome.uncaught e ∧
    mainSteps w = [StepTag.envStep] ∧
    crewBuilt w = false ∧ kickoffCount w = 0 := by
unfold mainOutcome mainSteps crewBuilt kickoffCount mainEvents main
simp [hk, stepOf, isKickoffEv, isBuildEv]

/-- Runs whose register response parses as JSON but not as an object:
`data.get` raises `AttributeError` and nothing after the register call runs. -/
theorem run_reg_nondict (w : World) (key : String) (d : PyVal)
    (hok : get_org_key w.env = Except.ok key)
    (hr : w.registerResp.json = Except.ok d) (hd : isDictV d = false) :
    mainOutcome w = Outcome.uncaught PyErr.attributeError ∧
    mainSteps w = [StepTag.envStep, StepTag.registerStep] ∧
    crewBuilt w = false ∧ kickoffCount w = 0 := by
unfold mainOutcome mainSteps crewBuilt kickoffCount mainEvents main
cases d <;>
  simp [hok, register_device, hr, stepOf, isKickoffEv,
    isBuildEv, List.filterMap_append, List.filter_append, List.any_append]
simp [isDictV] at hd

/-- Runs whose validate response parses as JSON but not as an object:
`data.get` raises `AttributeError` and nothing after the validate call runs. -/
theorem run_val_nondict (w : World) (key : String) (lr : List (String × PyVal))
    (d : PyVal)
    (hok : get_org_key w.env = Except.ok key)
    (hr : w.registerResp.json = Except.ok (PyVal.dict lr))
    (hls : pyEqStr ((pyLookup lr "status").getD PyVal.none) "limit_reached" = false)
    (hv : w.validateResp.json = Except.ok d) (hd : isDictV d = false) :
    mainOutcome w = Outcome.uncaught PyErr.attributeError ∧
    mainSteps w = [StepTag.envStep, StepTag.registerStep, StepTag.statusBranch,
      StepTag.sleepStep, StepTag.validateStep] ∧
    crewBuilt w = false ∧ kickoffCount w = 0 := by
unfold mainOutcome mainSteps crewBuilt kickoffCount mainEvents main
cases d <;>
  simp [hok, register_device, hr, validate_device, hv, pyGet,
    hls, stepOf, isKickoffEv, isBuildEv, optRegKV_steps,
    optRegKV_filter_kickoff, optRegKV_any_build, List.filterMap_append,
    List.filter_append, List.any_append]
simp [isDictV] at hd

/-- Runs whose register response body does not parse as JSON: the parse
error is printed (status code and body) and the exception propagates; only
the env and register steps ever ran. -/
theorem run_badreg (w : World) (key : String)
    (hok : get_org_key w.env = Except.ok key)
    (hj : w.registerResp.json = Except.error ()) :
    mainOutcome w = Outcome.uncaught PyErr.jsonDecodeError ∧
    Event.printKV "Status code:" (PyVal.int (Int.ofNat w.registerResp.status_code)) ∈ mainEvents w ∧
    Event.printKV "Body:" (PyVal.str w.registerResp.text) ∈ mainEvents w ∧
    mainSteps w = [StepTag.envStep, StepTag.registerStep] ∧
    crewBuilt w = false ∧ kickoffCount w = 0 := by
unfold mainOutcome mainSteps crewBuilt kickoffCount mainEvents main
simp [hok, register_device, hj, stepOf, isKickoffEv,
  isBuildEv, List.filterMap_append, List.filter_append, List.any_append]

/-- Runs whose validate response body does not parse as JSON: the parse
error is printed (status code and body) and the exception propagates; no
step after the validate call ever ran. -/
theorem run_badval (w : World) (key : String) (lr : List (String × PyVal))
    (hok : get_org_key w.env = Except.ok key)
    (hr : w.registerResp.json = Except.ok (PyVal.dict lr))
    (hls : pyEqStr ((pyLookup lr "status").getD PyVal.none) "limit_reached" = false)
    (hj : w.validateResp.json = Except.error ()) :
    mainOutcome w = Outcome.uncaught PyErr.jsonDecodeError ∧
    Event.printKV "Status code:" (PyVal.int (Int.ofNat w.validateResp.status_code)) ∈ mainEvents w ∧
    Event.printKV "Body:" (PyVal.str w.validateResp.text) ∈ mainEvents w ∧
    mainSteps w = [StepTag.envStep, StepTag.registerStep, StepTag.statusBranch,
      StepTag.sleepStep, StepTag.validateStep] ∧
    crewBuilt w = false ∧ kickoffCount w = 0 := by
unfold mainOutcome mainSteps crewBuilt kickoffCount mainEvents main
simp [hok, register_device, hr, validate_device, hj, pyGet,
  hls, stepOf, isKickoffEv, isBuildEv, optRegKV_steps,
  optRegKV_filter_kickoff, optRegKV_any_build, List.filterMap_append,
  List.filter_append, List.any_append]

/-- A set, non-empty org key makes `get_org_key` succeed with the stripped key. -/
theorem get_org_key_ok (env : String → Option String) (k : String)
    (hk : env "MACHINEID_ORG_KEY" = some k) (hk0 : k ≠ "") :
    get_org_key env = Except.ok k.trim := by
simp [get_org_key, hk, hk0]

/-- Comparing a looked-up status against `"limit_reached"` is `true` when the
looked-up value is that string. -/
theorem pyEqStr_of_eq (v : PyVal) (s : String) (h : v = PyVal.str s) :
    pyEqStr v s = true := by
rw [h]; simp [pyEqStr]

/-- Packaging for the C6 leaves that do not build the crew: a run whose
steps and outcome are known, did not finish, and did not build the crew,
satisfies the three step-order conclusions. -/
theorem c6_shape (w : World) (ts : List StepTag) (o : Outcome)
    (hs : mainSteps w = ts) (ho : mainOutcome w = o) (hb : crewBuilt w = false)
    (hpre : ts.isPrefixOf canonicalSteps = true) (hno : o ≠ Outcome.finished) :
    (mainSteps w).isPrefixOf canonicalSteps = true ∧
    (mainOutcome w = Outcome.finished → mainSteps w = canonicalSteps) ∧
    (crewBuilt w = true → Event.branchAllowed true ∈ mainEvents w) := by
refine ⟨by rw [hs]; exact hpre, ?_, ?_⟩
· intro hf
  rw [ho] at hf
  exact absurd hf hno
· intro hbt
  rw [hb] at hbt
  exact Bool.noConfusion hbt

/-! The claim theorems. -/

/-- C1: in every run whose register response is a JSON object with status
`"limit_reached"`, or whose validate response is a JSON object whose
`allowed` field coerces to `false`, `main` exits with code 0 and the CrewAI
framework is never invoked: `build_crewai_objects` and `crew.kickoff` are
not called. -/
theorem claim_C1_denied_or_limit_halts
    (w : World) (k : String) (lr : List (String × PyVal))
    (hk : w.env "MACHINEID_ORG_KEY" = some k) (hk0 : k ≠ "")
    (hr : w.registerResp.json = Except.ok (PyVal.dict lr))
    (hcase : (pyLookup lr "status").getD PyVal.none = PyVal.str "limit_reached" ∨
      ∃ lv, w.validateResp.json = Except.ok (PyVal.dict lv) ∧
        ((pyLookup lv "allowed").getD (PyVal.bool false)).truthy = false) :
    mainOutcome w = Outcome.exited 0 ∧ crewBuilt w = false ∧ kickoffCount w = 0 := by
have hok := get_org_key_ok w.env k hk hk0
rcases hcase with hs | ⟨lv, hv, ha⟩
· have h := run_halts_limit w k.trim lr hok hr (pyEqStr_of_eq _ _ hs)
  exact ⟨h.1, h.2.2.1, h.2.2.2⟩
· cases hls : pyEqStr ((pyLookup lr "status").getD PyVal.none) "limit_reached" with
  | true =>
    have h := run_halts_limit w k.trim lr hok hr hls
    exact ⟨h.1, h.2.2.1, h.2.2.2⟩
  | false =>
    have h := run_halts_denied w k.trim lr lv hok hr hls hv ha
    exact ⟨h.1, h.2.2.1, h.2.2.2⟩

/-- C1 witness: the `limit_reached` fixture halts with exit 0 and no crew. -/
theorem claim_C1_denied_or_limit_halts_witness :
    mainOutcome wLimit = Outcome.exited 0 ∧
    crewBuilt wLimit = false ∧ kickoffCount wLimit = 0 :=
claim_C1_denied_or_limit_halts wLimit "org_test_key_123"
  [("status", PyVal.str "limit_reached")] rfl (by decide) rfl (Or.inl rfl)

/-- C2: in every run where both responses are JSON objects, the register
status is not `"limit_reached"`, and the validate `allowed` field coerces to
`true`, the agent framework is invoked exactly once: one call to
`crew.kickoff` (and the crew is built). -/
theorem claim_C2_allowed_invokes_once
    (w : World) (k : String) (lr lv : List (String × PyVal))
    (hk : w.env "MACHINEID_ORG_KEY" = some k) (hk0 : k ≠ "")
    (hr : w.registerResp.json = Except.ok (PyVal.dict lr))
    (hls : pyEqStr ((pyLookup lr "status").getD PyVal.none) "limit_reached" = false)
    (hv : w.validateResp.json = Except.ok (PyVal.dict lv))
    (ha : ((pyLookup lv "allowed").getD (PyVal.bool false)).truthy = true) :
    kickoffCount w = 1 ∧ crewBuilt w = true := by
have h := run_allowed_kickoff w k.trim lr lv (get_org_key_ok w.env k hk hk0) hr hls hv ha
exact ⟨h.2.1, h.1⟩

/-- C2 witness: the happy-path fixture calls `crew.kickoff` exactly once. -/
theorem claim_C2_allowed_invokes_once_witness :
    kickoffCount wAllowed = 1 ∧ crewBuilt wAllowed = true :=
claim_C2_allowed_invokes_once wAllowed "org_test_key_123"
  [("status", PyVal.str "active"), ("handler", PyVal.str "edge")]
  [("allowed", PyVal.bool true), ("reason", PyVal.str "ok")]
  rfl (by decide) rfl rfl rfl rfl

/-- C3: the process exit code is 0 when the run is halted by a denial or
limit-reached decision, 1 when `crew.kickoff` raises, and 0 on a successful
run after printing the result. -/
theorem claim_C3_exit_codes
    (w : World) (k : String) (lr : List (String × PyVal))
    (hk : w.env "MACHINEID_ORG_KEY" = some k) (hk0 : k ≠ "")
    (hr : w.registerResp.json = Except.ok (PyVal.dict lr)) :
    (((pyLookup lr "status").getD PyVal.none = PyVal.str "limit_reached" ∨
       ∃ lv, w.validateResp.json = Except.ok (PyVal.dict lv) ∧
         ((pyLookup lv "allowed").getD (PyVal.bool false)).truthy = false) →
      exitCode (mainOutcome w) = 0) ∧
    (∀ lv msg, w.validateResp.json = Except.ok (PyVal.dict lv) →
      pyEqStr ((pyLookup lr "status").getD PyVal.none) "limit_reached" = false →
      ((pyLookup lv "allowed").getD (PyVal.bool false)).truthy = true →
      w.kickoffResult = Except.error msg →
      mainOutcome w = Outcome.exited 1 ∧ exitCode (mainOutcome w) = 1) ∧
    (∀ lv r, w.validateResp.json = Except.ok (PyVal.dict lv) →
      pyEqStr ((pyLookup lr "status").getD PyVal.none) "limit_reached" = false →
      ((pyLookup lv "allowed").getD (PyVal.bool false)).truthy = true →
      w.kickoffResult = Except.ok r →
      mainOutcome w = Outcome.finished ∧ exitCode (mainOutcome w) = 0 ∧
      Event.printResult r ∈ mainEvents w) := by
have hok := get_org_key_ok w.env k hk hk0
refine ⟨?_, ?_, ?_⟩
· intro hcase
  rcases hcase with hs | ⟨lv, hv, ha⟩
  · have h := run_halts_limit w k.trim lr hok hr (pyEqStr_of_eq _ _ hs)
    rw [h.1]
    rfl
  · cases hls : pyEqStr ((pyLookup lr "status").getD PyVal.none) "limit_reached" with
    | true =>
      have h := run_halts_limit w k.trim lr hok hr hls
      rw [h.1]
      rfl
    | false =>
      have h := run_halts_denied w k.trim lr lv hok hr hls hv ha
      rw [h.1]
      rfl
· intro lv msg hv hls ha hko
  have h := (run_allowed_kickoff w k.trim lr lv hok hr hls hv ha).2.2.2.1 msg hko
  exact ⟨h.1, by rw [h.1]; rfl⟩
· intro lv r hv hls ha hko
  have h := (run_allowed_kickoff w k.trim lr lv hok hr hls hv ha).2.2.2.2 r hko
  exact ⟨h.1, by rw [h.1]; rfl, h.2.1⟩

/-- C3 witness: a raising `crew.kickoff` terminates the fixture run with
exit code 1. -/
theorem claim_C3_exit_codes_witness :
    mainOutcome wKickoffBoom = Outcome.exited 1 ∧
    exitCode (mainOutcome wKickoffBoom) = 1 :=
(claim_C3_exit_codes wKickoffBoom "org_test_key_123"
  [("status", PyVal.str "active"), ("handler", PyVal.str "edge")]
  rfl (by decide) rfl).2.1
  [("allowed", PyVal.bool true), ("reason", PyVal.str "ok")] "boom"
  rfl rfl rfl rfl

/-- C4: a register or validate response whose body does not parse as JSON
makes the function print the status code and body and re-raise the parse
exception, which propagates out of `register_device`/`validate_device` and
terminates the process; no later step of `main` runs. -/
theorem claim_C4_nonjson_printed_and_reraised
    (w : World) (k : String)
    (hk : w.env "MACHINEID_ORG_KEY" = some k) (hk0 : k ≠ "") :
    (w.registerResp.json = Except.error () →
      mainOutcome w = Outcome.uncaught PyErr.jsonDecodeError ∧
      Event.printKV "Status code:" (PyVal.int (Int.ofNat w.registerResp.status_code)) ∈ mainEvents w ∧
      Event.printKV "Body:" (PyVal.str w.registerResp.text) ∈ mainEvents w ∧
      mainSteps w = [StepTag.envStep, StepTag.registerStep]) ∧
    (∀ lr, w.registerResp.json = Except.ok (PyVal.dict lr) →
      pyEqStr ((pyLookup lr "status").getD PyVal.none) "limit_reached" = false →
      w.validateResp.json = Except.error () →
      mainOutcome w = Outcome.uncaught PyErr.jsonDecodeError ∧
      Event.printKV "Status code:" (PyVal.int (Int.ofNat w.validateResp.status_code)) ∈ mainEvents w ∧
      Event.printKV "Body:" (PyVal.str w.validateResp.text) ∈ mainEvents w ∧
      mainSteps w = [StepTag.envStep, StepTag.registerStep, StepTag.statusBranch,
        StepTag.sleepStep, StepTag.validateStep]) := by
have hok := get_org_key_ok w.env k hk hk0
constructor
· intro hj
  have h := run_badreg w k.trim hok hj
  exact ⟨h.1, h.2.1, h.2.2.1, h.2.2.2.1⟩
· intro lr hr hls hj
  have h := run_badval w k.trim lr hok hr hls hj
  exact ⟨h.1, h.2.1, h.2.2.1, h.2.2.2.1⟩

/-- C4 witness: a non-JSON register body crashes the fixture run with the
JSON decode error after only the env and register steps. -/
theorem claim_C4_nonjson_printed_and_reraised_witness :
    mainOutcome wBadRegJson = Outcome.uncaught PyErr.jsonDecodeError ∧
    mainSteps wBadRegJson = [StepTag.envStep, StepTag.registerStep] :=
have h := (claim_C4_nonjson_printed_and_reraised wBadRegJson "org_test_key_123"
  rfl (by decide)).1 rfl
⟨h.1, h.2.2.2⟩

/-- C5: `get_org_key` raises exactly when `MACHINEID_ORG_KEY` is unset or
empty, while `get_device_id` is total: it returns `MACHINEID_DEVICE_ID`
when set and the default `"crewai-agent-01"` otherwise. -/
theorem claim_C5_env_vars (env : String → Option String) :
    ((∃ e, get_org_key env = Except.error e) ↔
      (env "MACHINEID_ORG_KEY" = Option.none ∨ env "MACHINEID_ORG_KEY" = some "")) ∧
    (∀ s, env "MACHINEID_DEVICE_ID" = some s → get_device_id env = s) ∧
    (env "MACHINEID_DEVICE_ID" = Option.none → get_device_id env = "crewai-agent-01") := by
refine ⟨⟨?_, ?_⟩, ?_, ?_⟩
· intro ⟨e, he⟩
  unfold get_org_key at he
  cases h : env "MACHINEID_ORG_KEY" with
  | none => exact Or.inl rfl
  | some s =>
    rw [h] at he
    by_cases hs : s = ""
    · exact Or.inr (by rw [hs])
    · simp [hs] at he
· intro h
  cases h with
  | inl h => exact ⟨PyErr.runtimeError missingOrgKeyMsg, by simp [get_org_key, h]⟩
  | inr h => exact ⟨PyErr.runtimeError missingOrgKeyMsg, by simp [get_org_key, h]⟩
· intro s hs
  simp [get_device_id, hs]
· intro h
  simp [get_device_id, h]

/-- C5 witness: on the fixture environment the device id is read from the
variable, and on the empty environment `get_org_key` raises. -/
theorem claim_C5_env_vars_witness :
    get_device_id envFull = "dev-7" ∧
    (∃ e, get_org_key (fun _ => Option.none) = Except.error e) :=
⟨(claim_C5_env_vars envFull).2.1 "dev-7" rfl,
 (claim_C5_env_vars (fun _ => Option.none)).1.2 (Or.inl rfl)⟩

/-- C7: a 4xx/5xx response with a JSON object body is surfaced to the
caller as that (error-shaped) dictionary, unchanged: `register_device` and
`validate_device` return the parsed body rather than special-casing the
status code. -/
theorem claim_C7_http_error_surfaced
    (org_key device_id : String) (resp : HttpResp) (l : List (String × PyVal))
    (_hc : 400 ≤ resp.status_code)
    (hj : resp.json = Except.ok (PyVal.dict l)) :
    (register_device org_key device_id resp).2 = Except.ok (PyVal.dict l) ∧
    (validate_device org_key device_id resp).2 = Except.ok (PyVal.dict l) := by
constructor
· simp [register_device, hj]
· simp [validate_device, hj]

/-- C7 witness: a 500 response with an error dict body is returned verbatim
by `register_device`. -/
theorem claim_C7_http_error_surfaced_witness :
    (register_device "org_test_key_123" "dev-7" (respJson 500 err500Body)).2 =
      Except.ok err500Body :=
(claim_C7_http_error_surfaced "org_test_key_123" "dev-7" (respJson 500 err500Body)
  [("error", PyVal.str "internal")] (by decide) rfl).1

/-- C8: for every org key and device id, `register_device` POSTs to the
register endpoint with body exactly `\x7b"deviceId": device_id\x7d` and the
org key header, and `validate_device` GETs the validate endpoint with
`deviceId` as a query parameter and the org key header. -/
theorem claim_C8_request_shape
    (org_key device_id : String) (respR respV : HttpResp) :
    registerRequest org_key device_id =
      { method := Method.post
        url := "https://machineid.io/api/v1/devices/register"
        headers := [("x-org-key", org_key), ("Content-Type", "application/json")]
        jsonBody := some (PyVal.dict [("deviceId", PyVal.str device_id)])
        params := []
        timeout := 10 } ∧
    validateRequest org_key device_id =
      { method := Method.get
        url := "https://machineid.io/api/v1/devices/validate"
        headers := [("x-org-key", org_key)]
        jsonBody := Option.none
        params := [("deviceId", device_id)]
        timeout := 10 } ∧
    Event.httpPost (registerRequest org_key device_id) ∈
      (register_device org_key device_id respR).1 ∧
    Event.httpGet (validateRequest org_key device_id) ∈
      (validate_device org_key device_id respV).1 := by
refine ⟨rfl, rfl, ?_, ?_⟩
· cases hj : respR.json with
  | error u => simp [register_device, hj]
  | ok data => cases data <;> simp [register_device, hj]
· cases hj : respV.json with
  | error u => simp [validate_device, hj]
  | ok data => cases data <;> simp [validate_device, hj]

/-- C9: a validate response object lacking the `allowed` key, or whose
`allowed` value coerces to `false` (`None`, `0`, `""`, ...), is treated as
not allowed: `main` exits with code 0 and the crew is never built or
invoked - denial is the default. -/
theorem claim_C9_denial_is_default
    (w : World) (k : String) (lr lv : List (String × PyVal))
    (hk : w.env "MACHINEID_ORG_KEY" = some k) (hk0 : k ≠ "")
    (hr : w.registerResp.json = Except.ok (PyVal.dict lr))
    (hls : pyEqStr ((pyLookup lr "status").getD PyVal.none) "limit_reached" = false)
    (hv : w.validateResp.json = Except.ok (PyVal.dict lv))
    (hmiss : pyLookup lv "allowed" = Option.none ∨
      ∃ v, pyLookup lv "allowed" = some v ∧ v.truthy = false) :
    mainOutcome w = Outcome.exited 0 ∧ crewBuilt w = false ∧ kickoffCount w = 0 := by
have ha : ((pyLookup lv "allowed").getD (PyVal.bool false)).truthy = false := by
  rcases hmiss with h | ⟨v, h, hv0⟩
  · rw [h]
    rfl
  · rw [h]
    exact hv0
have h := run_halts_denied w k.trim lr lv (get_org_key_ok w.env k hk hk0) hr hls hv ha
exact ⟨h.1, h.2.2.1, h.2.2.2⟩

/-- C9 witness: a validate body without an `allowed` key halts the fixture
run with exit 0 and no crew. -/
theorem claim_C9_denial_is_default_witness :
    mainOutcome wMissingAllowed = Outcome.exited 0 ∧
    crewBuilt wMissingAllowed = false ∧ kickoffCount wMissingAllowed = 0 :=
claim_C9_denial_is_default wMissingAllowed "org_test_key_123"
  [("status", PyVal.str "active"), ("handler", PyVal.str "edge")]
  [("status", PyVal.str "ok")]
  rfl (by decide) rfl rfl rfl (Or.inl rfl)

/-- C10: the register-stage gate blocks only on the exact status string
`"limit_reached"`: whenever the register response is a JSON object whose
status compares unequal to it (any other string, a non-string, or a missing
key), `main` proceeds to the sleep and to the validate call. -/
theorem claim_C10_only_limit_reached_blocks
    (w : World) (k : String) (lr : List (String × PyVal))
    (hk : w.env "MACHINEID_ORG_KEY" = some k) (hk0 : k ≠ "")
    (hr : w.registerResp.json = Except.ok (PyVal.dict lr))
    (hls : pyEqStr ((pyLookup lr "status").getD PyVal.none) "limit_reached" = false) :
    StepTag.sleepStep ∈ mainSteps w ∧ StepTag.validateStep ∈ mainSteps w := by
have hok := get_org_key_ok w.env k hk hk0
cases hv : w.validateResp.json with
| error u =>
  cases u
  have h := run_badval w k.trim lr hok hr hls hv
  rw [h.2.2.2.1]
  simp
| ok d =>
  cases hd : d with
  | dict lv =>
    cases ha : ((pyLookup lv "allowed").getD (PyVal.bool false)).truthy with
    | false =>
      have h := run_halts_denied w k.trim lr lv hok hr hls (hd ▸ hv) ha
      rw [h.2.1]
      simp
    | true =>
      have h := run_allowed_kickoff w k.trim lr lv hok hr hls (hd ▸ hv) ha
      cases hko : w.kickoffResult with
      | error msg =>
        rw [(h.2.2.2.1 msg hko).2]
        simp
      | ok r =>
        rw [(h.2.2.2.2 r hko).2.2]
        simp [canonicalSteps]
  | none =>
    have h := run_val_nondict w k.trim lr d hok hr hls hv (by rw [hd]; rfl)
    rw [h.2.1]
    simp
  | bool b =>
    have h := run_val_nondict w k.trim lr d hok hr hls hv (by rw [hd]; rfl)
    rw [h.2.1]
    simp
  | int n =>
    have h := run_val_nondict w k.trim lr d hok hr hls hv (by rw [hd]; rfl)
    rw [h.2.1]
    simp
  | str s =>
    have h := run_val_nondict w k.trim lr d hok hr hls hv (by rw [hd]; rfl)
    rw [h.2.1]
    simp
  | list xs =>
    have h := run_val_nondict w k.trim lr d hok hr hls hv (by rw [hd]; rfl)
    rw [h.2.1]
    simp

/-- C10 witness: a register status of `"error"` still reaches the sleep and
the validate call in the fixture run. -/
theorem claim_C10_only_limit_reached_blocks_witness :
    StepTag.sleepStep ∈ mainSteps wRegError ∧
    StepTag.validateStep ∈ mainSteps wRegError :=
claim_C10_only_limit_reached_blocks wRegError "org_test_key_123"
  [("status", PyVal.str "error")] rfl (by decide) rfl rfl

/-- C6: every run performs the steps of `main` in the fixed order - read
env vars, POST register, status branch, sleep, GET validate, allowed
branch, build crew, kickoff, print result - each at most once (the step
trace is a prefix of the canonical order); a run that finishes normally
performs all of them; and the crew is only ever built after the allowed
branch came out `true`. -/
theorem claim_C6_fixed_step_order (w : World) :
    (mainSteps w).isPrefixOf canonicalSteps = true ∧
    (mainOutcome w = Outcome.finished → mainSteps w = canonicalSteps) ∧
    (crewBuilt w = true → Event.branchAllowed true ∈ mainEvents w) := by
cases hok : get_org_key w.env with
| error e =>
  have h := run_orgkey_missing w e hok
  exact c6_shape w _ _ h.2.1 h.1 h.2.2.1 (by decide) (by simp)
| ok key =>
  cases hr : w.registerResp.json with
  | error u =>
    cases u
    have h := run_badreg w key hok hr
    exact c6_shape w _ _ h.2.2.2.1 h.1 h.2.2.2.2.1 (by decide) (by simp)
  | ok d =>
    cases d with
    | dict lr =>
      cases hls : pyEqStr ((pyLookup lr "status").getD PyVal.none) "limit_reached" with
      | true =>
        have h := run_halts_limit w key lr hok hr hls
        exact c6_shape w _ _ h.2.1 h.1 h.2.2.1 (by decide) (by simp)
      | false =>
        cases hv : w.validateResp.json with
        | error u =>
          cases u
          have h := run_badval w key lr hok hr hls hv
          exact c6_shape w _ _ h.2.2.2.1 h.1 h.2.2.2.2.1 (by decide) (by simp)
        | ok dv =>
          cases dv with
          | dict lv =>
            cases ha : ((pyLookup lv "allowed").getD (PyVal.bool false)).truthy with
            | false =>
              have h := run_halts_denied w key lr lv hok hr hls hv ha
              exact c6_shape w _ _ h.2.1 h.1 h.2.2.1 (by decide) (by simp)
            | true =>
              have h := run_allowed_kickoff w key lr lv hok hr hls hv ha
              cases hko : w.kickoffResult with
              | error msg =>
                have h2 := h.2.2.2.1 msg hko
                refine ⟨by rw [h2.2]; decide, ?_, fun _ => h.2.2.1⟩
                intro hf
                rw [h2.1] at hf
                exact Outcome.noConfusion hf
              | ok r =>
                have h2 := h.2.2.2.2 r hko
                exact ⟨by rw [h2.2.2]; decide, fun _ => h2.2.2, fun _ => h.2.2.1⟩
          | none =>
            have h := run_val_nondict w key lr PyVal.none hok hr hls hv rfl
            exact c6_shape w _ _ h.2.1 h.1 h.2.2.1 (by decide) (by simp)
          | bool b =>
            have h := run_val_nondict w key lr (PyVal.bool b) hok hr hls hv rfl
            exact c6_shape w _ _ h.2.1 h.1 h.2.2.1 (by decide) (by simp)
          | int n =>
            have h := run_val_nondict w key lr (PyVal.int n) hok hr hls hv rfl
            exact c6_shape w _ _ h.2.1 h.1 h.2.2.1 (by decide) (by simp)
          | str s =>
            have h := run_val_nondict w key lr (PyVal.str s) hok hr hls hv rfl
            exact c6_shape w _ _ h.2.1 h.1 h.2.2.1 (by decide) (by simp)
          | list xs =>
            have h := run_val_nondict w key lr (PyVal.list xs) hok hr hls hv rfl
            exact c6_shape w _ _ h.2.1 h.1 h.2.2.1 (by decide) (by simp)
    | none =>
      have h := run_reg_nondict w key PyVal.none hok hr rfl
      exact c6_shape w _ _ h.2.1 h.1 h.2.2.1 (by decide) (by simp)
    | bool b =>
      have h := run_reg_nondict w key (PyVal.bool b) hok hr rfl
      exact c6_shape w _ _ h.2.1 h.1 h.2.2.1 (by decide) (by simp)
    | int n =>
      have h := run_reg_nondict w key (PyVal.int n) hok hr rfl
      exact c6_shape w _ _ h.2.1 h.1 h.2.2.1 (by decide) (by simp)
    | str s =>
      have h := run_reg_nondict w key (PyVal.str s) hok hr rfl
      exact c6_shape w _ _ h.2.1 h.1 h.2.2.1 (by decide) (by simp)
    | list xs =>
      have h := run_reg_nondict w key (PyVal.list xs) hok hr rfl
      exact c6_shape w _ _ h.2.1 h.1 h.2.2.1 (by decide) (by simp)

/-- C6 witness: the happy-path fixture performs exactly the canonical step
sequence. -/
theorem claim_C6_fixed_step_order_witness :
    mainSteps wAllowed = canonicalSteps :=
(claim_C6_fixed_step_order wAllowed).2.1 rfl

end CrewaiAgent
